import Mathlib

/-!
Shallow embedding of `src/lib/machine_learning/reinforcement_learning/dqn.py`
(class `DQN` of the Serpent repository).

Modelling conventions:
* Python floats are modelled as `ℚ` (exact rationals; claims about floating
  tolerance are settled exactly).
* numpy arrays are modelled structurally: a game frame is a 2-D grid carried
  with its dimensions, the frame stack of shape `(1, rows, cols, depth)` is a
  list of its depth-axis slices (index 0 = newest, mirroring that
  `update_frame_stack` prepends along axis 3).
* The Keras model is opaque: its weights are an abstract identifier `Nat`,
  its `predict` and `train_on_batch` behaviours are passed to
  `train_on_mini_batch` as function parameters, and the compiled loss function
  is tracked as a tag (`logcosh` initially, `mse` after a reload recompile).
* Python exceptions are modelled with `Except (PyErr × DQNState) DQNState`:
  an error carries the state as it is at the moment the exception is raised,
  so partial mutation before a raise is observable.
* `random.sample(population, n)` is modelled by `sampleWithOracle`, which is
  deterministic given an oracle `Nat → Nat` choosing each draw, keeps the
  without-replacement semantics, and fails (Python `ValueError`) exactly when
  `n` exceeds the population size.
-/

namespace DQNModel

/-- A single observation frame: a 2-D numeric grid (a numpy array of shape
`(rows, cols)`), carried with its dimensions. -/
structure GameFrame where
  rows : Nat
  cols : Nat
  data : List ℚ
deriving DecidableEq, Repr

/-- Model of `self.frame_stack`: numpy array of shape `(1, rows, cols, depth)`.
`frames` lists the depth-axis (axis 3) slices, newest first. -/
structure FrameStack where
  rows : Nat
  cols : Nat
  frames : List GameFrame
deriving DecidableEq, Repr

/-- The depth of the stack along axis 3. -/
def FrameStack.depth (fs : FrameStack) : Nat := fs.frames.length

/-- A replay-memory transition
`(previous_frame_stack, current_action_index, reward, frame_stack, False)`
as appended by `append_to_replay_memory`.  `current_action_index` is `None`
at construction and never assigned inside `dqn.py`, hence `Option Nat`. -/
structure Transition where
  previousStack : FrameStack
  actionIndex : Option Nat
  reward : ℚ
  resultingStack : FrameStack
  isTerminal : Bool
deriving DecidableEq, Repr

/-- Tags for the Python exceptions the embedded methods can raise.  All of
them surface as exceptions to the caller; the tag records the raise site
(numpy shape errors and `random.sample`/unpacking/parse errors are all
`ValueError` in Python, `typeError` is Python's `TypeError` from slicing
`None`, `indexError` a numpy out-of-bounds index). -/
inductive PyErr
  | shapeMismatch
  | typeError
  | sampleTooLarge
  | malformedPath
  | indexError
  | valueError
deriving DecidableEq, Repr

/-- The loss function the Keras model is currently compiled with:
`logcosh` from `_initialize_model`, `mse` after `load_model_weights`
recompiles. -/
inductive LossKind
  | logcosh
  | mse
deriving DecidableEq, Repr

/-- State of a `DQN` instance: the attributes set in `DQN.__init__` that the
pure control logic reads or writes.  The epsilon-greedy policy's mutable
exploration probability `self.epsilon_greedy_q_policy.epsilon` is inlined as
the field `epsilon`.  (The CNN architecture, the visual debugger and the
input-device mapping are external collaborators and are not part of the
state; the model is represented by `model_weights`/`model_loss_kind`.) -/
structure DQNState where
  replay_memory_size : Nat
  replay_memory : List Transition
  batch_size : Nat
  action_count : Nat
  frame_stack : Option FrameStack
  max_steps : Nat
  observe_steps : ℚ
  current_observe_step : Nat
  current_step : Nat
  initial_epsilon : ℚ
  final_epsilon : ℚ
  previous_epsilon : Option ℚ
  epsilon : ℚ
  gamma : ℚ
  current_action_index : Option Nat
  current_action_type : Option String
  first_run : Bool
  mode : String
  model_weights : Nat
  model_loss_kind : LossKind
  model_loss : ℚ
deriving DecidableEq, Repr

/-- The keyword parameters of `DQN.__init__` with their Python default
values (`gamma=0.99`, `replay_memory_size=15000`, ...). -/
structure DQNParams where
  replay_memory_size : Nat := 15000
  batch_size : Nat := 32
  max_steps : Nat := 1000000
  observe_steps : Option ℚ := none
  initial_epsilon : ℚ := 1
  final_epsilon : ℚ := 1/10
  gamma : ℚ := 99/100
deriving Repr

/-- Embeds `DQN.__init__` (without a `model_file_path`, so no initial weight load):
fresh replay memory, no frame stack yet, `previous_epsilon = initial_epsilon`,
policy epsilon = `initial_epsilon`, mode `"TRAIN"`, loss 0.  Python computes
`observe_steps or (0.1 * replay_memory_size)`: the default applies when the
argument is `None` *or* falsy (i.e. `0`). -/
def init (p : DQNParams) (action_count : Nat) : DQNState where
  replay_memory_size := p.replay_memory_size
  replay_memory := []
  batch_size := p.batch_size
  action_count := action_count
  frame_stack := none
  max_steps := p.max_steps
  observe_steps :=
    match p.observe_steps with
    | none => (1/10 : ℚ) * p.replay_memory_size
    | some x => if x = 0 then (1/10 : ℚ) * p.replay_memory_size else x
  current_observe_step := 0
  current_step := 0
  initial_epsilon := p.initial_epsilon
  final_epsilon := p.final_epsilon
  previous_epsilon := some p.initial_epsilon
  epsilon := p.initial_epsilon
  gamma := p.gamma
  current_action_index := none
  current_action_type := none
  first_run := true
  mode := "TRAIN"
  model_weights := 0
  model_loss_kind := .logcosh
  model_loss := 0

/-- Embeds `DQN.enter_train_mode`. -/
def enter_train_mode (s : DQNState) : DQNState :=
  match s.previous_epsilon with
  | some e => { s with epsilon := e, previous_epsilon := none, mode := "TRAIN" }
  | none => { s with mode := "TRAIN" }

/-- Embeds `DQN.enter_run_mode`. -/
def enter_run_mode (s : DQNState) : DQNState :=
  { s with previous_epsilon := some s.epsilon, epsilon := 0, mode := "RUN" }

/-- Embeds `DQN.next_step`. -/
def next_step (s : DQNState) : DQNState :=
  if s.mode = "TRAIN" then
    { s with current_step := s.current_step + 1,
             current_observe_step := s.current_observe_step + 1 }
  else s

/-- The stack value built by `DQN.build_frame_stack`: the seed frame
replicated 8 times along the depth axis. -/
def build_stack (g : GameFrame) : FrameStack :=
  { rows := g.rows, cols := g.cols, frames := List.replicate 8 g }

/-- Embeds `DQN.build_frame_stack`. -/
def build_frame_stack (s : DQNState) (g : GameFrame) : DQNState :=
  { s with frame_stack := some (build_stack g) }

/-- The stack-level step of `DQN.update_frame_stack`:
`np.append(game_frame, self.frame_stack[:, :, :, :-1], axis=3)` prepends the
reshaped new frame along axis 3 and drops the last (oldest) slice.
`np.append` with an explicit axis requires the non-concatenation dimensions
to agree, else it raises (`none` here). -/
def update_stack (fs : FrameStack) (g : GameFrame) : Option FrameStack :=
  if g.rows = fs.rows ∧ g.cols = fs.cols then
    some { fs with frames := g :: fs.frames.dropLast }
  else none

/-- Embeds `DQN.update_frame_stack`.  `self.frame_stack` is only assigned after
`np.append` succeeds, so on an exception the stored stack is untouched.
Slicing a `None` stack raises `TypeError`. -/
def update_frame_stack (s : DQNState) (g : GameFrame) :
    Except (PyErr × DQNState) DQNState :=
  match s.frame_stack with
  | none => .error (.typeError, s)
  | some fs =>
    match update_stack fs g with
    | none => .error (.shapeMismatch, s)
    | some fs' => .ok { s with frame_stack := some fs' }

/-- Embeds `collections.deque(maxlen=maxlen).append`: appends on the right,
evicting from the left once `maxlen` is reached. -/
def dequeAppend (maxlen : Nat) (q : List α) (x : α) : List α :=
  (q ++ [x]).drop (q.length + 1 - maxlen)

/-- Embeds `DQN.append_to_replay_memory`: snapshots the previous stack, runs
`update_frame_stack` (whose exception propagates with no transition
appended), then appends
`(previous_frame_stack, current_action_index, reward, frame_stack, False)`. -/
def append_to_replay_memory (s : DQNState) (g : GameFrame) (reward : ℚ) :
    Except (PyErr × DQNState) DQNState :=
  match s.frame_stack with
  | none => .error (.typeError, s)
  | some prev =>
    match update_frame_stack s g with
    | .error e => .error e
    | .ok s1 =>
      match s1.frame_stack with
      | none => .error (.typeError, s1)
      | some next =>
        let t : Transition := ⟨prev, s.current_action_index, reward, next, false⟩
        .ok { s1 with
              replay_memory := dequeAppend s1.replay_memory_size s1.replay_memory t }

/-- Modelled from the spec: `EpsilonGreedyQPolicy.erode` is not under `src/`
(only `dqn.py` is); per the spec (§4.1), `decay(factor)` reduces epsilon by
`(initial_epsilon - final_epsilon) / max_steps * factor`, clamped so it never
drops below `final_epsilon`. -/
def policy_erode (s : DQNState) (factor : ℚ) : ℚ :=
  max s.final_epsilon
    (s.epsilon - (s.initial_epsilon - s.final_epsilon) / s.max_steps * factor)

/-- Embeds `DQN.erode_epsilon`: decays the policy epsilon only when
`current_observe_step > observe_steps` and the mode is `"TRAIN"`. -/
def erode_epsilon (s : DQNState) (factor : ℚ := 1) : DQNState :=
  if s.observe_steps < (s.current_observe_step : ℚ) ∧ s.mode = "TRAIN" then
    { s with epsilon := policy_erode s factor }
  else s

/-- Embeds `random.sample(population, n)`: draws `n` distinct positions without
replacement; the oracle `o` resolves each random choice.  Returns `none`
(Python raises `ValueError: Sample larger than population`) exactly when
`n` exceeds the population size. -/
def sampleWithOracle (pop : List α) (n : Nat) (o : Nat → Nat) : Option (List α) :=
  match n with
  | 0 => some []
  | n + 1 =>
    if h : 0 < pop.length then
      let i : Fin pop.length := ⟨o n % pop.length, Nat.mod_lt _ h⟩
      match sampleWithOracle (pop.eraseIdx i) n o with
      | none => none
      | some l => some (pop.get i :: l)
    else none

/-- Embeds `np.max` over a (nonempty) 1-D prediction vector.  (`np.max` of an empty
array raises; the empty case never arises with `action_count ≥ 1` and is
given the junk value 0.) -/
def listMax (l : List ℚ) : ℚ := l.foldl max (l.headD 0)

/-- The target row the loop body of `DQN.train_on_mini_batch` builds for one
sampled transition: `targets[i] = self.model.predict(previous_frame_stack)`,
then `targets[i, action_index]` is set to `reward` when terminal, else to
`reward + self.gamma * np.max(self.model.predict(frame_stack))`.
A `None` action index makes `targets[i, None] = v` a numpy newaxis view
assignment that broadcasts `v` over the whole row. -/
def bellmanTargetRow (pred : FrameStack → List ℚ) (gamma : ℚ) (t : Transition) :
    List ℚ :=
  let base := pred t.previousStack
  let v := if t.isTerminal then t.reward
           else t.reward + gamma * listMax (pred t.resultingStack)
  match t.actionIndex with
  | some a => base.set a v
  | none => base.map fun _ => v

/-- The numpy failure conditions of one iteration of the training loop, in
raise order: the flashback debug view `mini_batch[i][3][:, :, :, 1]` needs
depth ≥ 2 when `i` is a flashback index; `inputs[i:i+1] = previous_frame_stack`
needs the stored stack to match the freshly allocated `inputs` shape (taken
from the current `self.frame_stack`); `targets[i] = predict(...)` needs an
`action_count`-sized prediction; `targets[i, action_index]` needs the index
in bounds. -/
def transitionCheck (ac : Nat) (fs : FrameStack) (pred : FrameStack → List ℚ)
    (fidx : List Nat) (i : Nat) (t : Transition) : Option PyErr :=
  if fidx.contains i && decide (t.resultingStack.frames.length < 2) then
    some .indexError
  else if !(decide (t.previousStack.rows = fs.rows) &&
            decide (t.previousStack.cols = fs.cols) &&
            decide (t.previousStack.frames.length = fs.frames.length)) then
    some .valueError
  else if (pred t.previousStack).length != ac then
    some .valueError
  else
    match t.actionIndex with
    | some a => if ac ≤ a then some .indexError else none
    | none => none

/-- First error raised by the training loop over the mini-batch, if any. -/
def firstLoopErr (ac : Nat) (fs : FrameStack) (pred : FrameStack → List ℚ)
    (fidx : List Nat) : Nat → List Transition → Option PyErr
  | _, [] => none
  | i, t :: rest =>
    match transitionCheck ac fs pred fidx i t with
    | some e => some e
    | none => firstLoopErr ac fs pred fidx (i + 1) rest

/-- Embeds `DQN.train_on_mini_batch`.  `pred w stack` is `self.model.predict` at
weights `w`; `fit w inputs targets` is `self.model.train_on_batch`, returning
the loss and the updated weights; `o1`/`o2` resolve the two `random.sample`
calls.  Control flow of the source, in order: the observe gate
(`current_observe_step <= observe_steps` returns `None`), the mini-batch
sample from the replay memory, the `inputs` allocation reading
`self.frame_stack.shape`, the flashback-index sample
`random.sample(range(self.batch_size), 6)`, the loop, and the final
`self.model_loss = self.model.train_on_batch(inputs, targets)`. -/
def train_on_mini_batch (pred : Nat → FrameStack → List ℚ)
    (fit : Nat → List FrameStack → List (List ℚ) → ℚ × Nat)
    (o1 o2 : Nat → Nat) (s : DQNState) : Except (PyErr × DQNState) DQNState :=
  if (s.current_observe_step : ℚ) ≤ s.observe_steps then .ok s
  else
    match sampleWithOracle s.replay_memory s.batch_size o1 with
    | none => .error (.sampleTooLarge, s)
    | some mini_batch =>
      match s.frame_stack with
      | none => .error (.typeError, s)
      | some fs =>
        match sampleWithOracle (List.range s.batch_size) 6 o2 with
        | none => .error (.sampleTooLarge, s)
        | some fidx =>
          match firstLoopErr s.action_count fs (pred s.model_weights) fidx 0 mini_batch with
          | some e => .error (e, s)
          | none =>
            let inputs := mini_batch.map (·.previousStack)
            let targets := mini_batch.map (bellmanTargetRow (pred s.model_weights) s.gamma)
            let lw := fit s.model_weights inputs targets
            .ok { s with model_loss := lw.1, model_weights := lw.2 }

/-- One underscore-separated field of a checkpoint file path.  Python
interpolates numbers into the path with `str(...)`, whose output contains no
underscore; `int()`/`float()` recover them.  `.text` stands for a field that
is not the decimal rendering of a number (so `int()`/`float()` on it raise
`ValueError`), `.nat` for the rendering of a non-negative Python int, `.rat`
for the `repr` of a Python float (which always contains `.` or `e`, so
`int()` on it raises, while `float()` round-trips it exactly). -/
inductive PathField
  | text (s : String)
  | nat (n : Nat)
  | rat (q : ℚ)
deriving DecidableEq, Repr

/-- Python `int(field)` (succeeding only on an integer rendering). -/
def parseIntField : PathField → Option Nat
  | .nat n => some n
  | _ => none

/-- Python `float(field)` (succeeds on int and float renderings). -/
def parseFloatField : PathField → Option ℚ
  | .nat n => some (n : ℚ)
  | .rat q => some q
  | .text _ => none

/-- Embeds `DQN.save_model_weights`: builds
`f"{file_path_prefix}_dqn_{self.current_step}_{epsilon}_.h5"` when
`is_checkpoint`, else `f"{file_path_prefix}_dqn_{epsilon}_.h5"`, and writes
the current weights there.  A path is modelled as its list of
underscore-separated fields; `pre` is the prefix already split on `_`.
Returns the path and the file's content (the saved weights). -/
def save_model_weights (pre : List PathField) (is_checkpoint : Bool)
    (s : DQNState) : List PathField × Nat :=
  let path :=
    if is_checkpoint then
      pre ++ [.text "dqn", .nat s.current_step, .rat s.epsilon, .text ".h5"]
    else
      pre ++ [.text "dqn", .rat s.epsilon, .text ".h5"]
  (path, s.model_weights)

/-- Embeds `DQN.load_model_weights`, preserving the source's mutation order:
`self.model.load_weights(file_path)` first, then the `mse` recompile, then
`*args, steps, epsilon, extension = file_path.split("_")` (raising when
fewer than 3 fields), then `self.current_step = int(steps)` (raising on a
non-integer field), and only then, under `override_epsilon`, the epsilon
restore.  Each exit point (normal or exceptional) carries exactly the
mutations performed before that point, so an exception surfaces the
partially mutated state. -/
def load_model_weights (fileWeights : Nat) (path : List PathField)
    (override_epsilon : Bool) (s : DQNState) :
    Except (PyErr × DQNState) DQNState :=
  if 3 ≤ path.length then
    match parseIntField (path.getD (path.length - 3) (.text "")) with
    | none => .error (.malformedPath,
        { s with model_weights := fileWeights, model_loss_kind := LossKind.mse })
    | some n =>
      if override_epsilon then
        match parseFloatField (path.getD (path.length - 2) (.text "")) with
        | none => .error (.malformedPath,
            { s with model_weights := fileWeights, model_loss_kind := LossKind.mse,
                     current_step := n })
        | some q => .ok
            { s with model_weights := fileWeights, model_loss_kind := LossKind.mse,
                     current_step := n, previous_epsilon := some q, epsilon := q }
      else .ok
        { s with model_weights := fileWeights, model_loss_kind := LossKind.mse,
                 current_step := n }
  else .error (.malformedPath,
      { s with model_weights := fileWeights, model_loss_kind := LossKind.mse })

/-- Folding `update_stack` over a sequence of incoming frames (the effect on
the stored stack of consecutive successful `update_frame_stack` calls). -/
def update_stack_all (fs : FrameStack) (gs : List GameFrame) : Option FrameStack :=
  gs.foldlM update_stack fs

/-- The contents of the replay deque after appending the transitions `xs`
in order into an initially empty `collections.deque(maxlen=cap)`. -/
def replay_fold (cap : Nat) (xs : List α) : List α :=
  xs.foldl (dequeAppend cap) []

/-- Whether a checkpoint path parses under `load_model_weights`'s
`*args, steps, epsilon, extension = file_path.split("_")` destructuring
followed by `int(steps)` (and `float(epsilon)` when `override_epsilon`). -/
def pathParses (path : List PathField) (ov : Bool) : Bool :=
  decide (3 ≤ path.length) &&
  (parseIntField (path.getD (path.length - 3) (.text ""))).isSome &&
  (!ov || (parseFloatField (path.getD (path.length - 2) (.text ""))).isSome)

/-! ## Theorems -/

theorem sampleWithOracle_eq_none {α : Type} (pop : List α) (n : Nat) (o : Nat → Nat)
    (h : pop.length < n) : sampleWithOracle pop n o = none := by
  induction n generalizing pop with
  | zero => omega
  | succ m ih =>
    unfold sampleWithOracle
    by_cases hp : 0 < pop.length
    · have : (pop.eraseIdx (o m % pop.length)).length < m := by
        rw [List.length_eraseIdx_of_lt (Nat.mod_lt _ hp)]; omega
      simp only [hp, dif_pos]
      rw [ih _ this]
    · simp [hp]

theorem sampleWithOracle_length {α : Type} (pop : List α) (n : Nat) (o : Nat → Nat)
    (h : n ≤ pop.length) :
    ∃ l, sampleWithOracle pop n o = some l ∧ l.length = n := by
  induction n generalizing pop with
  | zero => exact ⟨[], rfl, rfl⟩
  | succ m ih =>
    have hp : 0 < pop.length := by omega
    have he : (pop.eraseIdx (o m % pop.length)).length = pop.length - 1 :=
      List.length_eraseIdx_of_lt (Nat.mod_lt _ hp)
    obtain ⟨l, hl, hlen⟩ := ih (pop.eraseIdx (o m % pop.length)) (by omega)
    refine ⟨pop.get ⟨o m % pop.length, Nat.mod_lt _ hp⟩ :: l, ?_, by simp [hlen]⟩
    unfold sampleWithOracle
    simp only [hp, dif_pos]
    rw [hl]

/-- C1: Bellman target construction in `train_on_mini_batch`: the target row
for a sampled transition starts as the approximator's own prediction for the
prior stack, so every non-taken-action column equals that prediction, and the
taken action's column is the transition's reward exactly when terminal, and
`reward + gamma * max (predict (resulting stack))` when non-terminal; the
constructor's `gamma` defaults to `0.99`. -/
theorem C1_bellman_target_construction
    (pred : FrameStack → List ℚ) (gamma : ℚ) (t : Transition) (a : Nat)
    (ha : t.actionIndex = some a) (hlt : a < (pred t.previousStack).length) :
    ((bellmanTargetRow pred gamma t).get? a =
        some (if t.isTerminal then t.reward
              else t.reward + gamma * listMax (pred t.resultingStack))) ∧
    (∀ j, j ≠ a →
        (bellmanTargetRow pred gamma t).get? j = (pred t.previousStack).get? j) ∧
    (∀ ac : Nat, (init {} ac).gamma = 99 / 100) := by
  refine ⟨?_, ?_, fun _ => rfl⟩
  · simp only [bellmanTargetRow, ha]
    exact List.get?_set_eq_of_lt _ hlt
  · intro j hj
    simp only [bellmanTargetRow, ha]
    exact List.get?_set_ne _ _ (Ne.symm hj)

def tC1 : Transition :=
  ⟨build_stack ⟨1, 1, [0]⟩, some 0, 3, build_stack ⟨1, 1, [0]⟩, false⟩

theorem C1_bellman_target_construction_witness :
    (bellmanTargetRow (fun _ => [5, 7]) 2 tC1).get? 0 =
      some (if tC1.isTerminal then tC1.reward
            else tC1.reward + 2 * listMax ((fun (_ : FrameStack) => [(5 : ℚ), 7]) tC1.resultingStack)) :=
  (C1_bellman_target_construction (fun _ => [5, 7]) 2 tC1 0 rfl (by decide)).1

/-- C4: `enter_run_mode` sets the effective exploration probability (the
policy epsilon) to exactly 0 for every prior epsilon value, and a subsequent
`enter_train_mode` restores the exact epsilon in effect immediately before
entering RUN mode. -/
theorem C4_run_mode_round_trip (s : DQNState) :
    (enter_run_mode s).epsilon = 0 ∧
    (enter_train_mode (enter_run_mode s)).epsilon = s.epsilon :=
  ⟨rfl, rfl⟩

/-- C10: calling `enter_run_mode` twice in a row overwrites the saved
`previous_epsilon` snapshot with the already-zeroed epsilon, so a following
`enter_train_mode` leaves epsilon at 0 instead of restoring the pre-RUN
value `e > 0`, which is permanently lost. -/
theorem C10_double_enter_run_loses_epsilon (s : DQNState) (h : 0 < s.epsilon) :
    (enter_run_mode (enter_run_mode s)).previous_epsilon = some 0 ∧
    (enter_train_mode (enter_run_mode (enter_run_mode s))).epsilon = 0 ∧
    (enter_train_mode (enter_run_mode (enter_run_mode s))).epsilon ≠ s.epsilon :=
  ⟨rfl, rfl, h.ne⟩

def sC10 : DQNState :=
  init { observe_steps := some 5, final_epsilon := 0, gamma := 1 } 4

theorem C10_double_enter_run_loses_epsilon_witness :
    (enter_run_mode (enter_run_mode sC10)).previous_epsilon = some 0 ∧
    (enter_train_mode (enter_run_mode (enter_run_mode sC10))).epsilon = 0 ∧
    (enter_train_mode (enter_run_mode (enter_run_mode sC10))).epsilon ≠ sC10.epsilon :=
  C10_double_enter_run_loses_epsilon sC10 (by decide)

/-- C8: `erode_epsilon` decays the exploration probability only when
`current_observe_step` strictly exceeds `observe_steps` and the mode is
`"TRAIN"`; in every other state the call leaves the whole agent state
unchanged. -/
theorem C8_erode_epsilon_gating (s : DQNState) (factor : ℚ) :
    (¬ (s.observe_steps < (s.current_observe_step : ℚ) ∧ s.mode = "TRAIN") →
        erode_epsilon s factor = s) ∧
    ((s.observe_steps < (s.current_observe_step : ℚ) ∧ s.mode = "TRAIN") →
        erode_epsilon s factor = { s with epsilon := policy_erode s factor }) := by
  constructor <;> intro h
  · simp [erode_epsilon, h]
  · simp [erode_epsilon, h]

def sC8 : DQNState :=
  { init { observe_steps := some 5, final_epsilon := 0, gamma := 1 } 4 with
    mode := "RUN", current_observe_step := 9 }

theorem C8_erode_epsilon_gating_witness :
    erode_epsilon sC8 1 = sC8 ∧
    erode_epsilon { sC8 with mode := "TRAIN" } 1 =
      { { sC8 with mode := "TRAIN" } with
        epsilon := policy_erode { sC8 with mode := "TRAIN" } 1 } :=
  ⟨(C8_erode_epsilon_gating sC8 1).1 (by decide),
   (C8_erode_epsilon_gating { sC8 with mode := "TRAIN" } 1).2 (by decide)⟩

/-- C9: when the incoming frame's dimensions are incompatible with the
established frame stack, `update_frame_stack` — including when invoked via
`append_to_replay_memory` — raises, the stored `frame_stack` is left exactly
as before the call (the error carries the unmutated state), and no
transition is appended to the replay memory. -/
theorem C9_shape_mismatch_preserves_state (s : DQNState) (g : GameFrame)
    (r : ℚ) (fs : FrameStack) (hfs : s.frame_stack = some fs)
    (hshape : ¬ (g.rows = fs.rows ∧ g.cols = fs.cols)) :
    update_frame_stack s g = .error (.shapeMismatch, s) ∧
    append_to_replay_memory s g r = .error (.shapeMismatch, s) := by
  have h1 : update_frame_stack s g = .error (.shapeMismatch, s) := by
    simp [update_frame_stack, hfs, update_stack, hshape]
  refine ⟨h1, ?_⟩
  simp [append_to_replay_memory, hfs, h1]

def sC9 : DQNState :=
  build_frame_stack
    (init { observe_steps := some 5, final_epsilon := 0, gamma := 1 } 4)
    ⟨2, 2, [0, 0, 0, 0]⟩

theorem update_stack_all_eq (fs : FrameStack) (gs : List GameFrame)
    (hsh : ∀ f ∈ gs, f.rows = fs.rows ∧ f.cols = fs.cols)
    (hlen : fs.frames.length = 8) :
    update_stack_all fs gs =
      some ⟨fs.rows, fs.cols, (gs.reverse ++ fs.frames).take 8⟩ := by
  induction gs generalizing fs with
  | nil =>
    simp [update_stack_all, List.take_of_length_le (le_of_eq hlen)]
  | cons g rest ih =>
    have hg := hsh g (List.mem_cons_self _ _)
    have hstep : update_stack fs g =
        some { fs with frames := g :: fs.frames.dropLast } := by
      simp [update_stack, hg.1, hg.2]
    have hlen1 : (({ fs with frames := g :: fs.frames.dropLast } : FrameStack)).frames.length = 8 := by
      simp [List.length_dropLast, hlen]
    have hrec := ih { fs with frames := g :: fs.frames.dropLast }
      (fun f hf => hsh f (List.mem_cons_of_mem _ hf)) hlen1
    rw [update_stack_all, List.foldlM_cons, hstep]
    simp only [Option.bind_eq_bind, Option.some_bind]
    rw [← update_stack_all, hrec]
    have key : ∀ (m : Nat) (L : List GameFrame), L.length = 8 → m ≤ 8 →
        (g :: L).take m = (g :: L.dropLast).take m := by
      intro m L hL hm
      cases m with
      | zero => rfl
      | succ m' =>
        simp only [List.take_succ_cons]
        rw [List.dropLast_eq_take, hL]
        rw [List.take_take]
        congr 2
        omega
    congr 2
    rw [show (g :: rest).reverse = rest.reverse ++ [g] by simp,
        List.append_assoc, List.take_append_eq_append_take,
        List.take_append_eq_append_take]
    rw [show ([g] ++ fs.frames) = g :: fs.frames from rfl]
    rw [key (8 - rest.reverse.length) fs.frames hlen (by omega)]

/-- C6: every frame stack built by `build_frame_stack` has depth exactly 8,
every successful `update_frame_stack` preserves depth 8 (prepending the new
frame and discarding the oldest), and after 8 consecutive updates the stack
consists exactly of the 8 update frames (newest first), so none of the seed
frame copies remain when the seed is not among the update frames. -/
theorem C6_frame_stack_depth (g : GameFrame) (gs : List GameFrame)
    (hsh : ∀ f ∈ gs, f.rows = g.rows ∧ f.cols = g.cols)
    (hlen : gs.length = 8) (hg : g ∉ gs) :
    (build_stack g).depth = 8 ∧
    (∀ (fs fs' : FrameStack) (f : GameFrame), fs.depth = 8 →
        update_stack fs f = some fs' → fs'.depth = 8) ∧
    update_stack_all (build_stack g) gs = some ⟨g.rows, g.cols, gs.reverse⟩ ∧
    g ∉ gs.reverse := by
  refine ⟨rfl, ?_, ?_, by simpa using hg⟩
  · intro fs fs' f hd hu
    by_cases hc : f.rows = fs.rows ∧ f.cols = fs.cols
    · simp only [update_stack, hc, and_self, if_true, Option.some.injEq] at hu
      subst hu
      simp only [FrameStack.depth, List.length_cons, List.length_dropLast]
      simp only [FrameStack.depth] at hd
      omega
    · simp [update_stack, hc] at hu
  · rw [update_stack_all_eq (build_stack g) gs (by simpa [build_stack] using hsh)
        (by simp [build_stack])]
    congr 2
    rw [show (build_stack g).frames = List.replicate 8 g from rfl,
        List.take_append_eq_append_take]
    simp [hlen]

def gC6 : GameFrame := ⟨1, 1, [0]⟩

def gsC6 : List GameFrame :=
  [⟨1, 1, [1]⟩, ⟨1, 1, [2]⟩, ⟨1, 1, [3]⟩, ⟨1, 1, [4]⟩,
   ⟨1, 1, [5]⟩, ⟨1, 1, [6]⟩, ⟨1, 1, [7]⟩, ⟨1, 1, [8]⟩]

theorem C6_frame_stack_depth_witness :
    update_stack_all (build_stack gC6) gsC6 =
      some ⟨gC6.rows, gC6.cols, gsC6.reverse⟩ ∧ gC6 ∉ gsC6.reverse :=
  ⟨(C6_frame_stack_depth gC6 gsC6 (by decide) (by decide) (by decide)).2.2.1,
   (C6_frame_stack_depth gC6 gsC6 (by decide) (by decide) (by decide)).2.2.2⟩

theorem replay_fold_eq {α : Type} (cap : Nat) (xs : List α) :
    replay_fold cap xs = xs.drop (xs.length - cap) := by
  induction xs using List.reverseRecOn with
  | nil => simp [replay_fold]
  | append_singleton l a ih =>
    rw [replay_fold, List.foldl_append, List.foldl_cons, List.foldl_nil]
    rw [← replay_fold, ih, dequeAppend, List.length_drop]
    rw [← List.drop_append_of_le_length (Nat.sub_le _ _), List.drop_drop]
    rw [List.length_append]
    congr 1
    simp only [List.length_singleton]
    omega

/-- C7: the replay deque never holds more than its configured capacity, and
eviction is FIFO: after inserting `cap + k` (pairwise distinct) transitions,
the deque holds exactly the last `cap` insertions in order, so the `k` oldest
are absent and the `cap - k` most recent survive as a suffix, in insertion
order. -/
theorem C7_replay_memory_fifo {α : Type} (cap k : Nat) (xs : List α)
    (hlen : xs.length = cap + k) (hnd : xs.Nodup) :
    (∀ (q : List α) (x : α), (dequeAppend cap q x).length ≤ cap) ∧
    replay_fold cap xs = xs.drop k ∧
    (∀ t ∈ xs.take k, t ∉ replay_fold cap xs) ∧
    (xs.drop (2 * k)).IsSuffix (replay_fold cap xs) := by
  have hfold : replay_fold cap xs = xs.drop k := by
    rw [replay_fold_eq, hlen]
    congr 1
    omega
  refine ⟨?_, hfold, ?_, ?_⟩
  · intro q x
    simp only [dequeAppend, List.length_drop, List.length_append, List.length_singleton]
    omega
  · intro t ht
    rw [hfold]
    exact fun hd => (List.disjoint_take_drop hnd le_rfl) ht hd
  · rw [hfold, two_mul, ← List.drop_drop]
    exact List.drop_suffix _ _

theorem C7_replay_memory_fifo_witness :
    replay_fold 3 [0, 1, 2, 3, 4] = [0, 1, 2, 3, 4].drop 2 ∧
    ([0, 1, 2, 3, 4].drop (2 * 2)).IsSuffix (replay_fold 3 [0, 1, 2, 3, 4]) :=
  ⟨(C7_replay_memory_fifo 3 2 [0, 1, 2, 3, 4] (by decide) (by decide)).2.1,
   (C7_replay_memory_fifo 3 2 [0, 1, 2, 3, 4] (by decide) (by decide)).2.2.2⟩

theorem C9_shape_mismatch_preserves_state_witness :
    update_frame_stack sC9 ⟨3, 2, [0, 0, 0, 0, 0, 0]⟩ = .error (.shapeMismatch, sC9) ∧
    append_to_replay_memory sC9 ⟨3, 2, [0, 0, 0, 0, 0, 0]⟩ 1 = .error (.shapeMismatch, sC9) :=
  C9_shape_mismatch_preserves_state sC9 ⟨3, 2, [0, 0, 0, 0, 0, 0]⟩ 1
    (build_stack ⟨2, 2, [0, 0, 0, 0]⟩) rfl (by decide)

theorem getD_append_add {α : Type} (l₁ l₂ : List α) (i : Nat) (d : α) :
    (l₁ ++ l₂).getD (l₁.length + i) d = l₂.getD i d := by
  induction l₁ with
  | nil => simp
  | cons a tl ih =>
    simpa [List.length_cons, Nat.succ_add] using ih

/-- C3: saving a checkpoint (`is_checkpoint = true`) and loading the produced
path restores the same `current_step`; with `override_epsilon` it also
restores the exact saved epsilon, and without it the epsilon in effect before
loading is left unchanged. -/
theorem C3_checkpoint_round_trip (s t : DQNState) (pre : List PathField)
    (fw : Nat) (ov : Bool) :
    load_model_weights fw (save_model_weights pre true s).1 ov t =
      .ok { t with model_weights := fw, model_loss_kind := .mse,
                   current_step := s.current_step,
                   previous_epsilon := if ov then some s.epsilon else t.previous_epsilon,
                   epsilon := if ov then s.epsilon else t.epsilon } ∧
    (∀ t', load_model_weights fw (save_model_weights pre true s).1 ov t = .ok t' →
        t'.current_step = s.current_step ∧
        t'.epsilon = (if ov then s.epsilon else t.epsilon)) := by
  have hpath : (save_model_weights pre true s).1 =
      pre ++ [.text "dqn", .nat s.current_step, .rat s.epsilon, .text ".h5"] := rfl
  have hlen : (pre ++ [PathField.text "dqn", .nat s.current_step,
      .rat s.epsilon, .text ".h5"]).length = pre.length + 4 := by
    simp
  have e1 : (pre ++ [PathField.text "dqn", .nat s.current_step,
      .rat s.epsilon, .text ".h5"]).length - 3 = pre.length + 1 := by
    omega
  have e2 : (pre ++ [PathField.text "dqn", .nat s.current_step,
      .rat s.epsilon, .text ".h5"]).length - 2 = pre.length + 2 := by
    omega
  have g1 : (pre ++ [PathField.text "dqn", .nat s.current_step,
        .rat s.epsilon, .text ".h5"]).getD
      ((pre ++ [PathField.text "dqn", .nat s.current_step,
        .rat s.epsilon, .text ".h5"]).length - 3) (.text "") = .nat s.current_step := by
    rw [e1, getD_append_add]
    rfl
  have g2 : (pre ++ [PathField.text "dqn", .nat s.current_step,
        .rat s.epsilon, .text ".h5"]).getD
      ((pre ++ [PathField.text "dqn", .nat s.current_step,
        .rat s.epsilon, .text ".h5"]).length - 2) (.text "") = .rat s.epsilon := by
    rw [e2, getD_append_add]
    rfl
  have hmain : load_model_weights fw (save_model_weights pre true s).1 ov t =
      .ok { t with model_weights := fw, model_loss_kind := .mse,
                   current_step := s.current_step,
                   previous_epsilon := if ov then some s.epsilon else t.previous_epsilon,
                   epsilon := if ov then s.epsilon else t.epsilon } := by
    rw [hpath]
    unfold load_model_weights
    rw [if_pos (by omega), g1, g2]
    cases ov <;> simp [parseIntField, parseFloatField]
  refine ⟨hmain, fun t' h => ?_⟩
  rw [hmain] at h
  cases h
  exact ⟨rfl, rfl⟩

def sC3 : DQNState :=
  { init { observe_steps := some 5, final_epsilon := 0, gamma := 1 } 4 with
    current_step := 11, epsilon := 3 }

def tC3 : DQNState :=
  { init { observe_steps := some 5, final_epsilon := 0, gamma := 1 } 4 with
    epsilon := 2 }

theorem C3_checkpoint_round_trip_witness :
    load_model_weights 7 (save_model_weights [.text "datasets/model", .text ""] true sC3).1
        true tC3 =
      .ok { tC3 with model_weights := 7, model_loss_kind := .mse,
                     current_step := sC3.current_step,
                     previous_epsilon := if true then some sC3.epsilon else tC3.previous_epsilon,
                     epsilon := if true then sC3.epsilon else tC3.epsilon } :=
  (C3_checkpoint_round_trip sC3 tC3 [.text "datasets/model", .text ""] 7 true).1

def sC5 : DQNState :=
  { init { observe_steps := some 5, final_epsilon := 0, gamma := 1 } 4 with
    current_step := 7, model_weights := 5 }

def pathC5 : List PathField :=
  [.text "m", .text "dqn", .nat 42, .text "xx", .text ".h5"]

/-- C5 counterexample: on the malformed path `"m_dqn_42_xx_.h5"` (whose
epsilon field does not parse), `load_model_weights` with `override_epsilon`
does raise at load time, but partial state HAS been applied on the error
path: the approximator's parameters were already replaced (weights 5 → 99,
recompiled to mse) before the filename parse, and `current_step` was already
updated (7 → 42) before the epsilon field was parsed — contradicting the
claim that `current_step`, epsilon and the approximator's parameters are all
unchanged. -/
theorem C5_counterexample :
    load_model_weights 99 pathC5 true sC5 =
      .error (.malformedPath,
        { sC5 with model_weights := 99, model_loss_kind := .mse, current_step := 42 }) ∧
    sC5.current_step = 7 ∧ sC5.model_weights = 5 ∧ sC5.model_loss_kind = .logcosh :=
  ⟨rfl, rfl, rfl, rfl⟩

/-- C5 (amended): when `load_model_weights` is given a path that does not
parse into the prefix/step/epsilon/extension pattern, the load fails with an
error surfaced to the caller at load time and the epsilon in effect (and the
saved `previous_epsilon`) are unchanged on the error path; however the
restore is not atomic: the approximator's parameters have already been
loaded and the model recompiled before the parse, and (when the step field
parses but the epsilon field does not) `current_step` has already been
updated.  When the path does parse, the load succeeds. -/
theorem C5_malformed_path_error (s : DQNState) (path : List PathField)
    (fw : Nat) (ov : Bool) :
    (pathParses path ov = false →
      ∃ t2, load_model_weights fw path ov s = .error (.malformedPath, t2) ∧
        t2.epsilon = s.epsilon ∧ t2.previous_epsilon = s.previous_epsilon ∧
        t2.model_weights = fw ∧ t2.model_loss_kind = .mse) ∧
    (pathParses path ov = true →
      ∃ t2, load_model_weights fw path ov s = .ok t2) := by
  by_cases h3 : 3 ≤ path.length
  · cases hi : parseIntField (path.getD (path.length - 3) (.text "")) with
    | none =>
      rw [List.getD_eq_getElem?_getD] at hi
      refine ⟨fun _ => ⟨{ s with model_weights := fw, model_loss_kind := LossKind.mse }, ?_, rfl, rfl, rfl, rfl⟩, fun hp => ?_⟩
      · simp [load_model_weights, h3, hi]
      · simp [pathParses, hi] at hp
    | some n =>
      rw [List.getD_eq_getElem?_getD] at hi
      cases ov with
      | false =>
        refine ⟨fun hp => ?_, fun _ => ⟨{ s with model_weights := fw, model_loss_kind := LossKind.mse, current_step := n }, ?_⟩⟩
        · simp [pathParses, h3, hi] at hp
        · simp [load_model_weights, h3, hi]
      | true =>
        cases hf : parseFloatField (path.getD (path.length - 2) (.text "")) with
        | none =>
          rw [List.getD_eq_getElem?_getD] at hf
          refine ⟨fun _ => ⟨{ s with model_weights := fw, model_loss_kind := LossKind.mse, current_step := n }, ?_, rfl, rfl, rfl, rfl⟩, fun hp => ?_⟩
          · simp [load_model_weights, h3, hi, hf]
          · simp [pathParses, h3, hi, hf] at hp
        | some q =>
          rw [List.getD_eq_getElem?_getD] at hf
          refine ⟨fun hp => ?_, fun _ => ⟨{ s with model_weights := fw, model_loss_kind := LossKind.mse, current_step := n, previous_epsilon := some q, epsilon := q }, ?_⟩⟩
          · simp [pathParses, h3, hi, hf] at hp
          · simp [load_model_weights, h3, hi, hf]
  · refine ⟨fun _ => ⟨{ s with model_weights := fw, model_loss_kind := LossKind.mse }, ?_, rfl, rfl, rfl, rfl⟩, fun hp => ?_⟩
    · simp [load_model_weights, h3]
    · simp [pathParses, h3] at hp

theorem C5_malformed_path_error_witness :
    ∃ t2, load_model_weights 99 pathC5 true sC5 = .error (.malformedPath, t2) ∧
      t2.epsilon = sC5.epsilon ∧ t2.previous_epsilon = sC5.previous_epsilon ∧
      t2.model_weights = 99 ∧ t2.model_loss_kind = .mse :=
  (C5_malformed_path_error sC5 pathC5 99 true).1 (by decide)

deriving instance DecidableEq for Except

/-- The C2 example scenario's seed/successor frame (a 1×1 grid). -/
def frameC2 : GameFrame := ⟨1, 1, [0]⟩

/-- The C2 example scenario's constructor arguments: 4 action combinations,
`replay_memory_size=10`, `observe_steps=5`, `batch_size=2` (the epsilon and
gamma parameters, which the scenario leaves unconstrained, are set to
integer values). -/
def paramsC2 : DQNParams :=
  { replay_memory_size := 10, batch_size := 2, observe_steps := some 5,
    initial_epsilon := 1, final_epsilon := 0, gamma := 1 }

def s0C2 : DQNState := build_frame_stack (init paramsC2 4) frameC2

/-- One environment tick of the per-step protocol for the C2 scenario:
`append_to_replay_memory` followed by `next_step` (which is what advances
`current_observe_step`). -/
def tickC2 (s : DQNState) : DQNState :=
  match append_to_replay_memory s frameC2 1 with
  | .ok s1 => next_step s1
  | .error e => e.2

/-- An append alone, with `next_step` never called (the claim's literal
reading mentions only `append_to_replay_memory` and `train_on_mini_batch`). -/
def appendOnlyC2 (s : DQNState) : DQNState :=
  match append_to_replay_memory s frameC2 1 with
  | .ok s1 => s1
  | .error e => e.2

def predC2 : Nat → FrameStack → List ℚ := fun _ _ => [0, 0, 0, 0]

def fitC2 : Nat → List FrameStack → List (List ℚ) → ℚ × Nat := fun _ _ _ => (1, 1)

/-- C2 counterexample: in the example scenario (4 actions,
`replay_memory_size=10`, `observe_steps=5`, `batch_size=2`), the 6th append
does NOT make `train_on_mini_batch` perform a training step that updates the
loss.  Under the claim's literal protocol (appends only), after 6 appends
`current_observe_step` is still 0, so `train_on_mini_batch` still returns at
the observe gate without sampling; and even under the full per-step protocol
(append + `next_step` each tick), after the 6th tick the call raises from
`random.sample(range(batch_size), 6)` (6 flashback indices from a population
of 2), so no training step runs and the reported loss stays at its initial
value 0. -/
theorem C2_counterexample :
    train_on_mini_batch predC2 fitC2 (fun _ => 0) (fun _ => 0) (appendOnlyC2^[6] s0C2)
        = .ok (appendOnlyC2^[6] s0C2) ∧
    (appendOnlyC2^[6] s0C2).replay_memory.length = 6 ∧
    train_on_mini_batch predC2 fitC2 (fun _ => 0) (fun _ => 0) (tickC2^[6] s0C2)
        = .error (.sampleTooLarge, tickC2^[6] s0C2) ∧
    (tickC2^[6] s0C2).model_loss = 0 := by
  exact ⟨by decide, by decide, by decide, by decide⟩

/-- C2 (amended): in the example scenario, with `next_step` called after each
append (the per-step protocol; appends alone never advance
`current_observe_step`), the first 5 ticks leave `train_on_mini_batch` a
no-op returning with the state — and hence the reported loss — unchanged;
after the 6th tick the observe gate opens and it samples 2 transitions from
the replay memory, but then fails on `random.sample(range(batch_size), 6)`
(drawing the 6 flashback debug indices from a population of size
`batch_size = 2`), so no training step is performed and the reported loss is
unchanged; a loss-updating training step would require `batch_size ≥ 6`. -/
theorem C2_observe_gate_then_flashback_failure
    (pred : Nat → FrameStack → List ℚ)
    (fit : Nat → List FrameStack → List (List ℚ) → ℚ × Nat)
    (o1 o2 : Nat → Nat) :
    train_on_mini_batch pred fit o1 o2 (tickC2^[5] s0C2) = .ok (tickC2^[5] s0C2) ∧
    (∃ mb, sampleWithOracle (tickC2^[6] s0C2).replay_memory
        (tickC2^[6] s0C2).batch_size o1 = some mb ∧ mb.length = 2) ∧
    train_on_mini_batch pred fit o1 o2 (tickC2^[6] s0C2)
        = .error (.sampleTooLarge, tickC2^[6] s0C2) := by
  obtain ⟨mb, hmb, hlen⟩ := sampleWithOracle_length
    (tickC2^[6] s0C2).replay_memory (tickC2^[6] s0C2).batch_size o1 (by decide)
  refine ⟨?_, ⟨mb, hmb, hlen.trans (by decide)⟩, ?_⟩
  · unfold train_on_mini_batch
    rw [if_pos (by decide)]
  · unfold train_on_mini_batch
    rw [if_neg (by decide), hmb,
        sampleWithOracle_eq_none (List.range (tickC2^[6] s0C2).batch_size) 6 o2 (by decide)]
    rfl

theorem C2_observe_gate_then_flashback_failure_witness :
    train_on_mini_batch predC2 fitC2 id id (tickC2^[5] s0C2) = .ok (tickC2^[5] s0C2) ∧
    (∃ mb, sampleWithOracle (tickC2^[6] s0C2).replay_memory
        (tickC2^[6] s0C2).batch_size id = some mb ∧ mb.length = 2) ∧
    train_on_mini_batch predC2 fitC2 id id (tickC2^[6] s0C2)
        = .error (.sampleTooLarge, tickC2^[6] s0C2) :=
  C2_observe_gate_then_flashback_failure predC2 fitC2 id id

end DQNModel
